import Mathlib

/-!
Shallow embedding of the tangiblelearning-backend contact/admin server:
administrator credential storage and password hashing (models/Admin.js),
the admin-auth middleware (middleware/auth.js), the auth routes
(login, change-password), the public contact-submission route
(routes/contactRoutes.js), the admin contact routes (get-one, reply),
and the two-tier express-rate-limit configuration of server.js.
Time is a natural number (milliseconds for the contact/rate-limit layer,
seconds for the JWT layer, matching Date.now() vs JWT numeric dates);
MongoDB document ids are naturals; collections are lists of records.
-/

namespace Tangible

/-- Administrator roles, from the adminSchema role enum. -/
inductive Role where
  | admin : Role
  | super_admin : Role
deriving DecidableEq, Repr

/-- Abstract model of a password-field value: either a raw (plaintext)
string as assigned by route handlers, or a bcrypt hash `bhash cost salt v`
of an underlying value, as produced by bcrypt.hash(v, salt). The
constructor keeps the hashed value so that bcrypt.compare can be modelled
exactly: compare succeeds iff the stored value is a single bcrypt hash of
the raw candidate. -/
inductive PValue where
  | raw : String → PValue
  | bhash : Nat → Nat → PValue → PValue
deriving DecidableEq, Repr

/-- bcrypt.hash(v, salt) with the given cost factor baked into the salt. -/
def bcryptHash (cost salt : Nat) (v : PValue) : PValue :=
  PValue.bhash cost salt v

/-- bcrypt.compare(candidate, stored): true iff `stored` is a bcrypt hash
whose preimage is exactly the raw candidate string. -/
def bcryptCompare (candidate : String) : PValue → Bool
  | PValue.bhash _ _ (PValue.raw s) => s == candidate
  | _ => false

/-- Structural depth of a password value: number of bcrypt layers. -/
def pdepth : PValue → Nat
  | PValue.raw _ => 0
  | PValue.bhash _ _ v => pdepth v + 1

/-- JWT payload as signed by the login route: { id, username, role },
plus the iat/exp numeric dates added by jsonwebtoken. -/
structure JwtPayload where
  id : Nat
  username : String
  role : Role
  iat : Nat
  exp : Nat
deriving DecidableEq, Repr

/-- A presented token: either not a well-formed JWT at all, or a payload
signed with some secret string. -/
inductive Token where
  | malformed : String → Token
  | signed : JwtPayload → String → Token
deriving DecidableEq, Repr

/-- The two jsonwebtoken verification error classes handled by the
middleware catch block. -/
inductive JwtError where
  | JsonWebTokenError : JwtError
  | TokenExpiredError : JwtError
deriving DecidableEq, Repr

/-- process.env.JWT_SECRET || 'your-secret-key' (auth.js line 18,
authRoutes login line 60). -/
def jwtSecret (env : Option String) : String :=
  env.getD "your-secret-key"

/-- jwt.sign({id, username, role}, secret, {expiresIn}): embeds the three
subject fields, an issued-at time, and exp = iat + lifetime (seconds). -/
def jwtSign (id : Nat) (username : String) (role : Role)
    (secret : String) (nowSec lifetimeSec : Nat) : Token :=
  Token.signed { id := id, username := username, role := role,
                 iat := nowSec, exp := nowSec + lifetimeSec } secret

/-- jwt.verify(token, secret) at clock time nowSec: a malformed token or a
signature made with a different secret raises JsonWebTokenError; a
correctly signed token whose exp has passed (nowSec >= exp) raises
TokenExpiredError; otherwise the payload is returned. -/
def jwtVerify (tok : Token) (secret : String) (nowSec : Nat) :
    Except JwtError JwtPayload :=
  match tok with
  | Token.malformed _ => Except.error JwtError.JsonWebTokenError
  | Token.signed p s =>
    if s ≠ secret then Except.error JwtError.JsonWebTokenError
    else if p.exp ≤ nowSec then Except.error JwtError.TokenExpiredError
    else Except.ok p

/-- An administrator document (models/Admin.js adminSchema). -/
structure AdminRec where
  _id : Nat
  username : String
  email : String
  password : PValue
  fullName : Option String := none
  role : Role := Role.admin
  isActive : Bool := true
  lastLogin : Option Nat := none
deriving DecidableEq, Repr

/-- Admin.findById(id). -/
def findById (store : List AdminRec) (i : Nat) : Option AdminRec :=
  store.find? (fun a => a._id == i)

/-- adminSchema.methods.comparePassword: bcrypt.compare(candidate, this.password). -/
def comparePassword (a : AdminRec) (candidate : String) : Bool :=
  bcryptCompare candidate a.password

/-- adminSchema.pre('save') hook: if the password field was modified in
this save, replace it with a fresh bcrypt hash at cost 12 using the
freshly generated salt; otherwise leave the document untouched. -/
def preSaveHook (a : AdminRec) (passwordModified : Bool) (salt : Nat) : AdminRec :=
  if passwordModified then { a with password := bcryptHash 12 salt a.password }
  else a

/-- Persisting a document: replace the record with the same _id. -/
def saveAdmin (store : List AdminRec) (a : AdminRec) : List AdminRec :=
  store.map (fun b => if b._id == a._id then a else b)

/-- The JSON response shape { status, success, message } used by every
handler in the repository. -/
structure ApiResponse where
  status : Nat
  success : Bool
  message : String
deriving DecidableEq, Repr

/-- The req.admin object attached by the middleware on success. -/
structure ReqAdmin where
  id : Nat
  username : String
  email : String
  role : Role
deriving DecidableEq, Repr

/-- Outcome of the middleware: call next() with req.admin set, or send a
response without invoking the protected route. -/
inductive AuthOutcome where
  | proceed : ReqAdmin → AuthOutcome
  | reject : ApiResponse → AuthOutcome
deriving DecidableEq, Repr

/-- middleware/auth.js authenticateAdmin: extract the bearer token,
jwt.verify it, re-query the admin by the decoded id, and reject unless the
admin exists and isActive; JWT errors map to the two distinct 401
messages of the catch block. -/
def authenticateAdmin (store : List AdminRec) (secret : String)
    (nowSec : Nat) (authToken : Option Token) : AuthOutcome :=
  match authToken with
  | none =>
    AuthOutcome.reject ⟨401, false, "Access denied. No token provided."⟩
  | some tok =>
    match jwtVerify tok secret nowSec with
    | Except.error JwtError.JsonWebTokenError =>
      AuthOutcome.reject ⟨401, false, "Access denied. Invalid token."⟩
    | Except.error JwtError.TokenExpiredError =>
      AuthOutcome.reject ⟨401, false, "Access denied. Token expired."⟩
    | Except.ok decoded =>
      match findById store decoded.id with
      | none =>
        AuthOutcome.reject ⟨401, false, "Access denied. Invalid token or inactive account."⟩
      | some admin =>
        if admin.isActive then
          AuthOutcome.proceed ⟨admin._id, admin.username, admin.email, admin.role⟩
        else
          AuthOutcome.reject ⟨401, false, "Access denied. Invalid token or inactive account."⟩

/-- Result of the POST /api/auth/login handler: the sent response, the
token it carries (when any), and the store after updateLastLogin. -/
structure LoginOutcome where
  resp : ApiResponse
  token : Option Token
  store : List AdminRec
deriving DecidableEq, Repr

/-- Admin.findOne({$or:[{username},{email:username}], isActive:true}):
first administrator whose username or email equals the identifier and
whose active flag is true. -/
def findOneActiveByIdentifier (store : List AdminRec) (u : String) :
    Option AdminRec :=
  store.find? (fun a => (a.username == u || a.email == u) && a.isActive)

/-- POST /api/auth/login (authRoutes): the express-validator chain has
already trim-sanitized the username; validate (username and password both
non-empty), look up an active admin by username or
email, bcrypt-compare the password, stamp lastLogin via save (password not
modified, so the pre-save hook is a no-op), and sign a JWT embedding id,
username and role. Both the lookup miss and the password mismatch answer
401 "Invalid credentials". -/
def login (store : List AdminRec) (secret : String) (lifetimeSec : Nat)
    (now : Nat) (username password : String) : LoginOutcome :=
  if username == "" || password == "" then
    { resp := ⟨400, false, "Validation failed"⟩, token := none, store := store }
  else
    match findOneActiveByIdentifier store username with
    | none =>
      { resp := ⟨401, false, "Invalid credentials"⟩, token := none, store := store }
    | some admin =>
      if comparePassword admin password then
        let admin1 := preSaveHook { admin with lastLogin := some now } false 0
        { resp := ⟨200, true, "Login successful"⟩,
          token := some (jwtSign admin._id admin.username admin.role secret now lifetimeSec),
          store := saveAdmin store admin1 }
      else
        { resp := ⟨401, false, "Invalid credentials"⟩, token := none, store := store }

/-- PUT /api/auth/change-password (authRoutes): validate (currentPassword
non-empty, newPassword at least 6 chars), fetch the authenticated admin
with password, re-verify the current password, then assign the new
plaintext and save — the pre-save hook hashes it with a fresh salt. -/
def changePassword (store : List AdminRec) (adminId : Nat)
    (currentPassword newPassword : String) (salt : Nat) :
    ApiResponse × List AdminRec :=
  if currentPassword == "" || newPassword.length < 6 then
    (⟨400, false, "Validation failed"⟩, store)
  else
    match findById store adminId with
    | none => (⟨404, false, "Admin not found"⟩, store)
    | some admin =>
      if comparePassword admin currentPassword then
        let admin1 := preSaveHook { admin with password := PValue.raw newPassword } true salt
        (⟨200, true, "Password changed successfully"⟩, saveAdmin store admin1)
      else
        (⟨400, false, "Current password is incorrect"⟩, store)

/-- Contact status enum; the schema default for a new submission is
status new (model of models/Contact.js, whose fields the spec section 3
lists: status in new, read, replied, resolved, default new, with
timestamps). -/
inductive CStatus where
  | new : CStatus
  | read : CStatus
  | replied : CStatus
  | resolved : CStatus
deriving DecidableEq, Repr

/-- A contact-form submission document. -/
structure ContactRec where
  _id : Nat
  name : String
  email : String
  phone : Option String := none
  subject : Option String := none
  message : String
  company : Option String := none
  ipAddress : String := ""
  userAgent : String := ""
  source : String := "website"
  status : CStatus := CStatus.new
  createdAt : Nat := 0
deriving DecidableEq, Repr

/-- Contact.findById(id). -/
def findContactById (db : List ContactRec) (i : Nat) : Option ContactRec :=
  db.find? (fun c => c._id == i)

/-- Persisting a contact document: replace the record with the same _id. -/
def saveContact (db : List ContactRec) (c : ContactRec) : List ContactRec :=
  db.map (fun d => if d._id == c._id then c else d)

/-- The validated body fields of a contact submission. -/
structure SubmitIn where
  name : String
  email : String
  phone : Option String := none
  subject : Option String := none
  message : String
  company : Option String := none
deriving DecidableEq, Repr

/-- The duplicate gate of POST /api/contact: Contact.findOne({email,
message, createdAt: {$gte: Date.now() - 5*60*1000}}) finds something. -/
def isDuplicate (db : List ContactRec) (email message : String)
    (nowMs : Nat) : Bool :=
  db.any (fun c =>
    c.email == email && c.message == message &&
      decide (nowMs - 5 * 60 * 1000 ≤ c.createdAt))

/-- Result of the POST /api/contact handler: response, contact collection
afterwards, ids of contacts whose notification email dispatch was started,
and the console log entries produced by the fire-and-forget catch. -/
structure SubmitOutcome where
  resp : ApiResponse
  db : List ContactRec
  notified : List Nat
  log : List String
deriving DecidableEq, Repr

/-- POST /api/contact (contactRoutes), after validation: reject 429 when
the duplicate gate fires, returning before the record is written and
before any notification dispatch; otherwise persist the new contact,
start the notification email without awaiting it (a dispatch failure is
only caught and logged), and answer 201. `emailOk` is the eventual fate
of the dispatched notification email. -/
def contactSubmit (db : List ContactRec) (nowMs freshId : Nat)
    (inp : SubmitIn) (ipAddress userAgent : String) (emailOk : Bool) :
    SubmitOutcome :=
  if isDuplicate db inp.email inp.message nowMs then
    { resp := ⟨429, false, "Duplicate submission detected. Please wait before submitting again."⟩,
      db := db, notified := [], log := [] }
  else
    let contact : ContactRec :=
      { _id := freshId, name := inp.name, email := inp.email,
        phone := inp.phone, subject := inp.subject, message := inp.message,
        company := inp.company, ipAddress := ipAddress,
        userAgent := userAgent, source := "website",
        status := CStatus.new, createdAt := nowMs }
    { resp := ⟨201, true, "Thank you for your message! We will get back to you soon."⟩,
      db := db ++ [contact],
      notified := [freshId],
      log := if emailOk then [] else ["Failed to send notification email:"] }

/-- POST /api/admin/contacts/:id/reply (adminRoutes): subject and
message arrive trim-sanitized from the validator chain; validate their
lengths, fetch the contact, await sendReplyEmail — a rejected
dispatch is caught and answered as 500 "Failed to send reply" with the
status update skipped — and on dispatch success mark the contact replied
and answer 200. `emailOk` is the fate of the awaited reply email. -/
def replyToContact (db : List ContactRec) (contactId : Nat)
    (subject message : String) (emailOk : Bool) :
    ApiResponse × List ContactRec :=
  if subject.length < 1 || 200 < subject.length ||
      message.length < 1 || 5000 < message.length then
    (⟨400, false, "Validation failed"⟩, db)
  else
    match findContactById db contactId with
    | none => (⟨404, false, "Contact not found"⟩, db)
    | some c =>
      if emailOk then
        (⟨200, true, "Reply sent successfully"⟩,
         saveContact db { c with status := CStatus.replied })
      else
        (⟨500, false, "Failed to send reply"⟩, db)

/-- Result of GET /api/admin/contacts/:id: response, returned document,
collection afterwards. -/
structure GetOutcome where
  resp : ApiResponse
  data : Option ContactRec
  db : List ContactRec
deriving DecidableEq, Repr

/-- GET /api/admin/contacts/:id (adminRoutes): fetch the contact; if its
status is new, set it to read and save before responding with the updated
document; otherwise respond with the document unchanged. -/
def getContactById (db : List ContactRec) (contactId : Nat) : GetOutcome :=
  match findContactById db contactId with
  | none => { resp := ⟨404, false, "Contact not found"⟩, data := none, db := db }
  | some c =>
    if c.status == CStatus.new then
      let c1 := { c with status := CStatus.read }
      { resp := ⟨200, true, ""⟩, data := some c1, db := saveContact db c1 }
    else
      { resp := ⟨200, true, ""⟩, data := some c, db := db }

/-- Modelled from the spec: the express-rate-limit in-memory store
(library code, not in the repository) as the spec section 4.3 describes
it — a fixed count of hits per IP within a fixed wall-clock window,
inclusive-at-start, reset implicitly when the window elapses. `resetTime`
is the instant the current window ends; `hits` maps an IP to its count in
the current window. -/
structure LimiterStore where
  resetTime : Nat
  hits : List (String × Nat)
deriving DecidableEq, Repr

/-- Hit count recorded for an IP. -/
def getHits (h : List (String × Nat)) (ip : String) : Nat :=
  match h.find? (fun p => p.1 == ip) with
  | some p => p.2
  | none => 0

/-- Record a hit count for an IP. -/
def setHits (h : List (String × Nat)) (ip : String) (n : Nat) :
    List (String × Nat) :=
  match h with
  | [] => [(ip, n)]
  | p :: rest =>
    if p.1 == ip then (ip, n) :: rest else p :: setHits rest ip n

/-- Modelled from the spec: one request hitting a rate-limit middleware
configured with {windowMs, max}. If the window has elapsed, counters
reset and a fresh window opens; the request increments this IP's counter
and passes iff the incremented count is within max. -/
def limiterHit (windowMs maxHits : Nat) (st : LimiterStore) (ip : String)
    (nowMs : Nat) : Bool × LimiterStore :=
  let st1 := if st.resetTime ≤ nowMs then
      { resetTime := nowMs + windowMs, hits := [] }
    else st
  let n := getHits st1.hits ip + 1
  (decide (n ≤ maxHits), { st1 with hits := setHits st1.hits ip n })

/-- Server state threaded through rate-limited /api requests: the general
limiter store (100 requests / 15 minutes on /api/), the contact limiter
store (5 submissions / 1 hour on /api/contact), and the contact
collection. -/
structure ApiState where
  api : LimiterStore
  contact : LimiterStore
  db : List ContactRec
deriving DecidableEq, Repr

/-- A POST /api/contact request travelling the server.js middleware
chain: the general /api/ limiter runs first (429 with its message when
over quota), then the contact limiter (429 with its message), then the
contactRoutes submission handler. -/
def apiContactRequest (st : ApiState) (ip : String) (nowMs freshId : Nat)
    (inp : SubmitIn) (userAgent : String) : ApiResponse × ApiState :=
  let r1 := limiterHit (15 * 60 * 1000) 100 st.api ip nowMs
  if r1.1 then
    let r2 := limiterHit (60 * 60 * 1000) 5 st.contact ip nowMs
    if r2.1 then
      let out := contactSubmit st.db nowMs freshId inp ip userAgent true
      (out.resp, { api := r1.2, contact := r2.2, db := out.db })
    else
      (⟨429, false, "Too many contact form submissions, please try again later."⟩,
       { st with api := r1.2, contact := r2.2 })
  else
    (⟨429, false, "Too many requests from this IP, please try again later."⟩,
     { st with api := r1.2 })

/-- A request to any other /api/ path: only the general limiter applies;
the boolean is whether the request reached its route. -/
def apiGeneralRequest (st : ApiState) (ip : String) (nowMs : Nat) :
    Bool × ApiState :=
  let r1 := limiterHit (15 * 60 * 1000) 100 st.api ip nowMs
  (r1.1, { st with api := r1.2 })

/-- Run a sequence of contact submissions from one IP; each list entry is
(request time, fresh id, body). Returns the responses in order and the
final state. -/
def runContactReqs (st : ApiState) (ip : String)
    (reqs : List (Nat × Nat × SubmitIn)) : List ApiResponse × ApiState :=
  match reqs with
  | [] => ([], st)
  | (t, fid, inp) :: rest =>
    let r := apiContactRequest st ip t fid inp ""
    let rr := runContactReqs r.2 ip rest
    (r.1 :: rr.1, rr.2)

/-- Run a sequence of general /api/ requests from one IP at the given
times; returns which reached their route, and the final state. -/
def runGeneralReqs (st : ApiState) (ip : String) (times : List Nat) :
    List Bool × ApiState :=
  match times with
  | [] => ([], st)
  | t :: rest =>
    let r := apiGeneralRequest st ip t
    let rr := runGeneralReqs r.2 ip rest
    (r.1 :: rr.1, rr.2)

/-- A sample stored contact submission used in concrete instantiations. -/
def alice : ContactRec :=
  { _id := 1, name := "Alice", email := "a@x.io", message := "hello there msg" }

/-- A sample administrator document whose password field still holds the
just-assigned plaintext, about to be saved. -/
def rootRaw : AdminRec :=
  { _id := 1, username := "root", email := "root@x.io",
    password := PValue.raw "secret1" }

/-- A sample contact-form body used in concrete instantiations. -/
def joInput : SubmitIn :=
  { name := "Jo Smith", email := "jo@x.io", message := "hello there field" }

section Theorems

/-- C1: with a bearer token present, the admin-auth middleware lets the
request proceed iff the token is signed with the configured secret, the
current time is before its expiry, and the admin with the token's id
exists in the store with isActive true; every other outcome on a
token-carrying request is a 401 rejection with success false. -/
theorem C1_admin_auth_accept_iff (store : List AdminRec) (secret : String)
    (nowSec : Nat) (tok : Token) :
    ((∃ p, tok = Token.signed p secret ∧ nowSec < p.exp ∧
        ∃ a, findById store p.id = some a ∧ a.isActive = true) ↔
      (∃ ra, authenticateAdmin store secret nowSec (some tok) =
        AuthOutcome.proceed ra)) ∧
    (∀ r, authenticateAdmin store secret nowSec (some tok) =
        AuthOutcome.reject r → r.status = 401 ∧ r.success = false) := by
  constructor
  · constructor
    · rintro ⟨p, rfl, hlt, a, hfind, hact⟩
      refine ⟨⟨a._id, a.username, a.email, a.role⟩, ?_⟩
      simp [authenticateAdmin, jwtVerify, Nat.not_le.mpr hlt, hfind, hact]
    · rintro ⟨ra, h⟩
      cases tok with
      | malformed s => simp [authenticateAdmin, jwtVerify] at h
      | signed p s =>
        by_cases hs : s = secret
        · subst hs
          by_cases hexp : p.exp ≤ nowSec
          · simp [authenticateAdmin, jwtVerify, hexp] at h
          · cases hfind : findById store p.id with
            | none => simp [authenticateAdmin, jwtVerify, hexp, hfind] at h
            | some a =>
              by_cases hact : a.isActive = true
              · exact ⟨p, rfl, Nat.not_le.mp hexp, a, hfind, hact⟩
              · simp [authenticateAdmin, jwtVerify, hexp, hfind, hact] at h
        · simp [authenticateAdmin, jwtVerify, hs] at h
  · intro r h
    cases tok with
    | malformed s =>
      simp [authenticateAdmin, jwtVerify] at h
      simp [← h]
    | signed p s =>
      by_cases hs : s = secret
      · subst hs
        by_cases hexp : p.exp ≤ nowSec
        · simp [authenticateAdmin, jwtVerify, hexp] at h
          simp [← h]
        · cases hfind : findById store p.id with
          | none =>
            simp [authenticateAdmin, jwtVerify, hexp, hfind] at h
            simp [← h]
          | some a =>
            by_cases hact : a.isActive = true
            · simp [authenticateAdmin, jwtVerify, hexp, hfind, hact] at h
            · simp [authenticateAdmin, jwtVerify, hexp, hfind, hact] at h
              simp [← h]
      · simp [authenticateAdmin, jwtVerify, hs] at h
        simp [← h]

/-- Concrete instantiation of C1: an active admin with id 1, a token
signed with the right secret and unexpired is accepted; a malformed token
is rejected with a 401 response. -/
theorem C1_admin_auth_accept_iff_witness :
    (∃ ra, authenticateAdmin
        [{ _id := 1, username := "root", email := "root@x.io",
           password := PValue.bhash 12 0 (PValue.raw "pw") }] "sec" 10
        (some (Token.signed ⟨1, "root", Role.admin, 10, 20⟩ "sec")) =
        AuthOutcome.proceed ra) ∧
    ((⟨401, false, "Access denied. Invalid token."⟩ : ApiResponse).status = 401 ∧
      (⟨401, false, "Access denied. Invalid token."⟩ : ApiResponse).success = false) :=
  ⟨(C1_admin_auth_accept_iff
      [{ _id := 1, username := "root", email := "root@x.io",
         password := PValue.bhash 12 0 (PValue.raw "pw") }] "sec" 10
      (Token.signed ⟨1, "root", Role.admin, 10, 20⟩ "sec")).1.mp
    ⟨⟨1, "root", Role.admin, 10, 20⟩, rfl, by decide, _, rfl, rfl⟩,
   (C1_admin_auth_accept_iff
      [{ _id := 1, username := "root", email := "root@x.io",
         password := PValue.bhash 12 0 (PValue.raw "pw") }] "sec" 10
      (Token.malformed "zz")).2 ⟨401, false, "Access denied. Invalid token."⟩
     (by decide)⟩

/-- C2: issuance/verification round-trip — when the active-admin lookup
by identifier returns a record and the candidate password bcrypt-matches
its stored hash, login succeeds with a signed token, and verifying that
token at any time before its expiry recovers exactly the id, username and
role embedded at issuance. -/
theorem C2_login_token_roundtrip (store : List AdminRec) (admin : AdminRec)
    (secret : String) (lifetimeSec now tv : Nat) (username password : String)
    (hu : username ≠ "") (hp : password ≠ "")
    (hfind : findOneActiveByIdentifier store username = some admin)
    (hpw : comparePassword admin password = true)
    (htv : tv < now + lifetimeSec) :
    (login store secret lifetimeSec now username password).resp =
      ⟨200, true, "Login successful"⟩ ∧
    ∃ tok p, (login store secret lifetimeSec now username password).token = some tok ∧
      jwtVerify tok secret tv = Except.ok p ∧
      p.id = admin._id ∧ p.username = admin.username ∧ p.role = admin.role := by
  have hcond : (username == "" || password == "") = false := by
    simp [hu, hp]
  refine ⟨?_, jwtSign admin._id admin.username admin.role secret now lifetimeSec,
    ⟨admin._id, admin.username, admin.role, now, now + lifetimeSec⟩, ?_, ?_, rfl, rfl, rfl⟩
  · simp [login, hcond, hfind, hpw]
  · simp [login, hcond, hfind, hpw, jwtSign]
  · simp [jwtSign, jwtVerify, Nat.not_le.mpr htv]

/-- Concrete instantiation of C2: a seeded super_admin logging in with
the matching password obtains a token that verifies back to its id,
username and role. -/
theorem C2_login_token_roundtrip_witness :
    (login
        [{ _id := 1, username := "superadmin", email := "sa@x.io",
           password := PValue.bhash 12 3 (PValue.raw "admin123456"),
           role := Role.super_admin }]
        "sec" 86400 1000 "superadmin" "admin123456").resp =
      ⟨200, true, "Login successful"⟩ ∧
    ∃ tok p, (login
        [{ _id := 1, username := "superadmin", email := "sa@x.io",
           password := PValue.bhash 12 3 (PValue.raw "admin123456"),
           role := Role.super_admin }]
        "sec" 86400 1000 "superadmin" "admin123456").token = some tok ∧
      jwtVerify tok "sec" 5000 = Except.ok p ∧
      p.id = 1 ∧ p.username = "superadmin" ∧ p.role = Role.super_admin :=
  C2_login_token_roundtrip
    [{ _id := 1, username := "superadmin", email := "sa@x.io",
       password := PValue.bhash 12 3 (PValue.raw "admin123456"),
       role := Role.super_admin }]
    { _id := 1, username := "superadmin", email := "sa@x.io",
      password := PValue.bhash 12 3 (PValue.raw "admin123456"),
      role := Role.super_admin }
    "sec" 86400 1000 5000 "superadmin" "admin123456"
    (by decide) (by decide) (by decide) (by decide) (by decide)

/-- C3: a login whose identifier matches no stored active administrator
and a login whose identifier matches an active administrator but whose
password fails the bcrypt comparison produce the very same outcome — a
401 response with success false and the message Invalid credentials, no
token, and an unchanged store — so the two failure causes cannot be told
apart by the caller. -/
theorem C3_login_failures_indistinguishable (store : List AdminRec)
    (secret : String) (lifetimeSec now : Nat) (u1 p1 u2 p2 : String)
    (admin : AdminRec)
    (hu1 : u1 ≠ "") (hp1 : p1 ≠ "") (hu2 : u2 ≠ "") (hp2 : p2 ≠ "")
    (hmiss : findOneActiveByIdentifier store u1 = none)
    (hhit : findOneActiveByIdentifier store u2 = some admin)
    (hbad : comparePassword admin p2 = false) :
    login store secret lifetimeSec now u1 p1 =
      { resp := ⟨401, false, "Invalid credentials"⟩, token := none, store := store } ∧
    login store secret lifetimeSec now u2 p2 =
      { resp := ⟨401, false, "Invalid credentials"⟩, token := none, store := store } ∧
    login store secret lifetimeSec now u1 p1 =
      login store secret lifetimeSec now u2 p2 := by
  have hc1 : (u1 == "" || p1 == "") = false := by simp [hu1, hp1]
  have hc2 : (u2 == "" || p2 == "") = false := by simp [hu2, hp2]
  have h1 : login store secret lifetimeSec now u1 p1 =
      { resp := ⟨401, false, "Invalid credentials"⟩, token := none, store := store } := by
    simp [login, hc1, hmiss]
  have h2 : login store secret lifetimeSec now u2 p2 =
      { resp := ⟨401, false, "Invalid credentials"⟩, token := none, store := store } := by
    simp [login, hc2, hhit, hbad]
  exact ⟨h1, h2, h1.trans h2.symm⟩

/-- Concrete instantiation of C3: an unknown username and a known
username with a wrong password are answered identically. -/
theorem C3_login_failures_indistinguishable_witness :
    login
        [{ _id := 1, username := "superadmin", email := "sa@x.io",
           password := PValue.bhash 12 3 (PValue.raw "admin123456"),
           role := Role.super_admin }]
        "sec" 86400 1000 "nobody" "whatever" =
      login
        [{ _id := 1, username := "superadmin", email := "sa@x.io",
           password := PValue.bhash 12 3 (PValue.raw "admin123456"),
           role := Role.super_admin }]
        "sec" 86400 1000 "superadmin" "wrongpass" :=
  (C3_login_failures_indistinguishable
    [{ _id := 1, username := "superadmin", email := "sa@x.io",
       password := PValue.bhash 12 3 (PValue.raw "admin123456"),
       role := Role.super_admin }]
    "sec" 86400 1000 "nobody" "whatever" "superadmin" "wrongpass"
    { _id := 1, username := "superadmin", email := "sa@x.io",
      password := PValue.bhash 12 3 (PValue.raw "admin123456"),
      role := Role.super_admin }
    (by decide) (by decide) (by decide) (by decide)
    (by decide) (by decide) (by decide)).2.2

/-- C4: the contact handler answers 429 iff some stored submission with
the same email and message was created at or after now minus 5 minutes;
on 429 the collection is untouched and no notification dispatch is
started, and otherwise the submission is appended and answered 201. -/
theorem C4_contact_duplicate_gate (db : List ContactRec) (nowMs freshId : Nat)
    (inp : SubmitIn) (ip ua : String) (emailOk : Bool) :
    ((contactSubmit db nowMs freshId inp ip ua emailOk).resp.status = 429 ↔
      ∃ c ∈ db, c.email = inp.email ∧ c.message = inp.message ∧
        nowMs - 5 * 60 * 1000 ≤ c.createdAt) ∧
    ((contactSubmit db nowMs freshId inp ip ua emailOk).resp.status = 429 →
      (contactSubmit db nowMs freshId inp ip ua emailOk).db = db ∧
      (contactSubmit db nowMs freshId inp ip ua emailOk).notified = []) ∧
    ((contactSubmit db nowMs freshId inp ip ua emailOk).resp.status ≠ 429 →
      (contactSubmit db nowMs freshId inp ip ua emailOk).resp =
        ⟨201, true, "Thank you for your message! We will get back to you soon."⟩ ∧
      (contactSubmit db nowMs freshId inp ip ua emailOk).db =
        db ++ [{ _id := freshId, name := inp.name, email := inp.email,
                 phone := inp.phone, subject := inp.subject,
                 message := inp.message, company := inp.company,
                 ipAddress := ip, userAgent := ua, source := "website",
                 status := CStatus.new, createdAt := nowMs }] ∧
      (contactSubmit db nowMs freshId inp ip ua emailOk).notified = [freshId]) := by
  have hiff : isDuplicate db inp.email inp.message nowMs = true ↔
      ∃ c ∈ db, c.email = inp.email ∧ c.message = inp.message ∧
        nowMs - 5 * 60 * 1000 ≤ c.createdAt := by
    simp only [isDuplicate, List.any_eq_true, Bool.and_eq_true, beq_iff_eq,
      decide_eq_true_eq, and_assoc]
  by_cases hdup : isDuplicate db inp.email inp.message nowMs = true
  · refine ⟨⟨fun _ => hiff.mp hdup, fun _ => ?_⟩, fun _ => ?_,
      fun hne => absurd ?_ hne⟩
    · simp [contactSubmit, hdup]
    · simp [contactSubmit, hdup]
    · simp [contactSubmit, hdup]
  · refine ⟨⟨fun h => ?_, fun hex => absurd (hiff.mpr hex) hdup⟩,
      fun h => ?_, fun _ => ?_⟩
    · simp [contactSubmit, hdup] at h
    · simp [contactSubmit, hdup] at h
    · simp [contactSubmit, hdup]

/-- Concrete instantiation of C4: a fresh submission on an empty
collection is not a duplicate, gets persisted and answered 201. -/
theorem C4_contact_duplicate_gate_witness :
    (contactSubmit [] 1000 7
        { name := "Jo Smith", email := "jo@x.io",
          message := "hello there field" } "1.2.3.4" "UA" true).resp =
      ⟨201, true, "Thank you for your message! We will get back to you soon."⟩ ∧
    (contactSubmit [] 1000 7
        { name := "Jo Smith", email := "jo@x.io",
          message := "hello there field" } "1.2.3.4" "UA" true).db =
      [{ _id := 7, name := "Jo Smith", email := "jo@x.io",
         phone := none, subject := none, message := "hello there field",
         company := none, ipAddress := "1.2.3.4", userAgent := "UA",
         source := "website", status := CStatus.new, createdAt := 1000 }] ∧
    (contactSubmit [] 1000 7
        { name := "Jo Smith", email := "jo@x.io",
          message := "hello there field" } "1.2.3.4" "UA" true).notified = [7] :=
  (C4_contact_duplicate_gate [] 1000 7
      { name := "Jo Smith", email := "jo@x.io",
        message := "hello there field" } "1.2.3.4" "UA" true).2.2
    (by decide)

/-- Helper: a bcrypt layer strictly increases structural depth, so
hashing never returns its own input. -/
theorem bhash_ne_self (c s : Nat) (v : PValue) : PValue.bhash c s v ≠ v := by
  intro h
  have hd := congrArg pdepth h
  simp only [pdepth] at hd
  omega

/-- Helper: mapping a function over a list changes the list whenever some
member is moved by the function. -/
theorem map_ne_of_mem_ne {α : Type} (f : α → α) (x : α) (hfx : f x ≠ x) :
    ∀ l : List α, x ∈ l → l.map f ≠ l := by
  intro l
  induction l with
  | nil => intro hx; simp at hx
  | cons y ys ih =>
    intro hx h
    rw [List.map_cons] at h
    have h1 := List.cons.inj h
    rcases List.mem_cons.mp hx with rfl | hmem
    · exact hfx h1.1
    · exact ih hmem h1.2

/-- C5 counterexample: in the admin reply route the email dispatch is
awaited, and when it fails the requester receives a 500 error instead of
a success response — so a reply dispatch failure is propagated, the
response depending on the dispatch outcome. -/
theorem C5_reply_dispatch_counterexample :
    (replyToContact [alice] 1 "Sub" "Msg" false).1 =
      ⟨500, false, "Failed to send reply"⟩ ∧
    (replyToContact [alice] 1 "Sub" "Msg" false).1.success ≠ true ∧
    (replyToContact [alice] 1 "Sub" "Msg" false).1 ≠
      (replyToContact [alice] 1 "Sub" "Msg" true).1 := by
  decide

/-- C5 amended: the notification dispatch of the contact route is
fire-and-forget — the response and the persisted collection are the same
whether the dispatch succeeds or fails, and a failure is only logged
while the requester still receives the success response — whereas the
reply route awaits its dispatch and a failing reply email is propagated
to the requester as a 500 response with the status update skipped. -/
theorem C5_email_dispatch_amended :
    (∀ db nowMs freshId inp ip ua,
      (contactSubmit db nowMs freshId inp ip ua false).resp =
        (contactSubmit db nowMs freshId inp ip ua true).resp ∧
      (contactSubmit db nowMs freshId inp ip ua false).db =
        (contactSubmit db nowMs freshId inp ip ua true).db ∧
      ((contactSubmit db nowMs freshId inp ip ua false).notified ≠ [] →
        (contactSubmit db nowMs freshId inp ip ua false).log =
          ["Failed to send notification email:"] ∧
        (contactSubmit db nowMs freshId inp ip ua false).resp.success = true)) ∧
    (∀ db cid subject message c,
      findContactById db cid = some c →
      1 ≤ subject.length → subject.length ≤ 200 →
      1 ≤ message.length → message.length ≤ 5000 →
      replyToContact db cid subject message false =
        (⟨500, false, "Failed to send reply"⟩, db)) := by
  constructor
  · intro db nowMs freshId inp ip ua
    by_cases hdup : isDuplicate db inp.email inp.message nowMs = true
    · simp [contactSubmit, hdup]
    · simp [contactSubmit, hdup]
  · intro db cid subject message c hfind h1 h2 h3 h4
    have hs1 : ¬ subject.length < 1 := by omega
    have hs2 : ¬ 200 < subject.length := by omega
    have hm1 : ¬ message.length < 1 := by omega
    have hm2 : ¬ 5000 < message.length := by omega
    simp [replyToContact, hs1, hs2, hm1, hm2, hfind]

/-- Concrete instantiation of the amended C5: a well-formed reply whose
email dispatch fails is answered 500 with the contact left untouched,
while a contact submission with a failing notification dispatch still
gets its success response. -/
theorem C5_email_dispatch_amended_witness :
    replyToContact [alice] 1 "Sub" "Msg" false =
      (⟨500, false, "Failed to send reply"⟩, [alice]) ∧
    (contactSubmit [] 1000 7 joInput "1.2.3.4" "UA" false).resp =
      (contactSubmit [] 1000 7 joInput "1.2.3.4" "UA" true).resp :=
  ⟨C5_email_dispatch_amended.2 [alice] 1 "Sub" "Msg" alice
      (by decide) (by decide) (by decide) (by decide) (by decide),
   (C5_email_dispatch_amended.1 [] 1000 7 joInput "1.2.3.4" "UA").1⟩

/-- C6: the pre-save hook changes the stored password iff the password
field was modified in the save; when modified it becomes a fresh bcrypt
hash at cost 12 with the newly generated salt (in particular never a raw
plaintext), and a save without a password modification leaves the whole
document, hash included, unchanged. -/
theorem C6_presave_hash_iff_modified (a : AdminRec) (m : Bool) (salt : Nat) :
    ((preSaveHook a m salt).password ≠ a.password ↔ m = true) ∧
    (m = true → (preSaveHook a m salt).password =
      PValue.bhash 12 salt a.password ∧
      ∀ s, (preSaveHook a m salt).password ≠ PValue.raw s) ∧
    (m = false → preSaveHook a m salt = a) := by
  cases m with
  | false => simp [preSaveHook]
  | true =>
    refine ⟨?_, fun _ => ⟨by simp [preSaveHook, bcryptHash], fun s => ?_⟩,
      fun h => by simp at h⟩
    · simp only [preSaveHook, if_pos rfl, bcryptHash]
      simp [bhash_ne_self]
    · simp [preSaveHook, bcryptHash]

/-- Concrete instantiation of C6: a modified-password save stores the
cost-12 hash of the assigned plaintext, which is not a raw plaintext
value. -/
theorem C6_presave_hash_iff_modified_witness :
    (preSaveHook rootRaw true 7).password =
      PValue.bhash 12 7 (PValue.raw "secret1") ∧
    (preSaveHook rootRaw true 7).password ≠ PValue.raw "secret1" :=
  ⟨((C6_presave_hash_iff_modified rootRaw true 7).2.1 rfl).1,
   ((C6_presave_hash_iff_modified rootRaw true 7).2.1 rfl).2 "secret1"⟩

/-- C8: a malformed token or one signed with a different secret is
rejected 401 with the invalid-token message; a correctly signed token
whose expiry has passed is rejected 401 with the distinct token-expired
message. -/
theorem C8_verify_error_discrimination (store : List AdminRec)
    (secret : String) (nowSec : Nat) (p : JwtPayload) (s str : String) :
    (authenticateAdmin store secret nowSec (some (Token.malformed str)) =
      AuthOutcome.reject ⟨401, false, "Access denied. Invalid token."⟩) ∧
    (s ≠ secret →
      authenticateAdmin store secret nowSec (some (Token.signed p s)) =
        AuthOutcome.reject ⟨401, false, "Access denied. Invalid token."⟩) ∧
    (p.exp ≤ nowSec →
      authenticateAdmin store secret nowSec (some (Token.signed p secret)) =
        AuthOutcome.reject ⟨401, false, "Access denied. Token expired."⟩) ∧
    ("Access denied. Invalid token." ≠ ("Access denied. Token expired." : String)) :=
  ⟨by simp [authenticateAdmin, jwtVerify],
   fun hs => by simp [authenticateAdmin, jwtVerify, hs],
   fun hexp => by simp [authenticateAdmin, jwtVerify, hexp],
   by decide⟩

/-- Concrete instantiation of C8: a token signed with the wrong secret
gets the invalid-token message, the same payload signed correctly but
past expiry gets the token-expired message. -/
theorem C8_verify_error_discrimination_witness :
    (authenticateAdmin [] "sec" 30
        (some (Token.signed ⟨1, "root", Role.admin, 10, 20⟩ "other")) =
      AuthOutcome.reject ⟨401, false, "Access denied. Invalid token."⟩) ∧
    (authenticateAdmin [] "sec" 30
        (some (Token.signed ⟨1, "root", Role.admin, 10, 20⟩ "sec")) =
      AuthOutcome.reject ⟨401, false, "Access denied. Token expired."⟩) :=
  ⟨(C8_verify_error_discrimination [] "sec" 30 ⟨1, "root", Role.admin, 10, 20⟩
      "other" "zz").2.1 (by decide),
   (C8_verify_error_discrimination [] "sec" 30 ⟨1, "root", Role.admin, 10, 20⟩
      "other" "zz").2.2.1 (by decide)⟩

/-- Helper: after persisting a record whose _id is i over a store in
which findById i succeeds, findById i returns the persisted record. -/
theorem findById_saveAdmin (store : List AdminRec) (a : AdminRec) (i : Nat)
    (ha : a._id = i) (h : (findById store i).isSome = true) :
    findById (saveAdmin store a) i = some a := by
  induction store with
  | nil => simp [findById] at h
  | cons x xs ih =>
    by_cases hx : x._id = i
    · simp [findById, saveAdmin, hx, ha]
    · have hxa : (x._id == a._id) = false := by
        simp [ha, hx]
      have hxi : (x._id == i) = false := by simp [hx]
      simp only [findById, saveAdmin, List.map_cons, List.find?_cons, hxa,
        Bool.false_eq_true, if_false, hxi] at h ⊢
      exact ih (by simpa [findById] using h)

/-- C9: when the authenticated admin is found and the supplied current
password verifies against the stored hash, change-password succeeds; in
the persisted record the new plaintext verifies and the old plaintext no
longer does (old and new assumed distinct). -/
theorem C9_change_password_rotation (store : List AdminRec) (i : Nat)
    (admin : AdminRec) (cur newPw : String) (salt : Nat)
    (hfind : findById store i = some admin)
    (hcur : comparePassword admin cur = true)
    (hc : cur ≠ "") (hlen : 6 ≤ newPw.length) (hne : cur ≠ newPw) :
    (changePassword store i cur newPw salt).1 =
      ⟨200, true, "Password changed successfully"⟩ ∧
    ∃ admin1, findById (changePassword store i cur newPw salt).2 i = some admin1 ∧
      bcryptCompare newPw admin1.password = true ∧
      bcryptCompare cur admin1.password = false := by
  have hcond : (cur == "" || newPw.length < 6) = false := by
    simp only [Bool.or_eq_false_iff, beq_eq_false_iff_ne, ne_eq,
      decide_eq_false_iff_not, Nat.not_lt]
    exact ⟨hc, hlen⟩
  have hid : admin._id = i := by
    have := List.find?_some hfind
    simpa using this
  refine ⟨by simp [changePassword, hcond, hfind, hcur], ?_⟩
  refine ⟨{ admin with password := PValue.bhash 12 salt (PValue.raw newPw) }, ?_, ?_, ?_⟩
  · have hstore : (changePassword store i cur newPw salt).2 =
        saveAdmin store { admin with password := PValue.bhash 12 salt (PValue.raw newPw) } := by
      simp [changePassword, hcond, hfind, hcur, preSaveHook, bcryptHash]
    rw [hstore]
    exact findById_saveAdmin store _ i hid (by simp [hfind])
  · simp [bcryptCompare]
  · simp [bcryptCompare]
    exact fun hEq => absurd hEq.symm hne

/-- Concrete instantiation of C9: rotating the seeded password, the new
plaintext verifies afterwards and the old one is rejected. -/
theorem C9_change_password_rotation_witness :
    (changePassword
        [{ _id := 1, username := "superadmin", email := "sa@x.io",
           password := PValue.bhash 12 3 (PValue.raw "admin123456"),
           role := Role.super_admin }] 1 "admin123456" "newpass9" 8).1 =
      ⟨200, true, "Password changed successfully"⟩ ∧
    ∃ admin1, findById (changePassword
        [{ _id := 1, username := "superadmin", email := "sa@x.io",
           password := PValue.bhash 12 3 (PValue.raw "admin123456"),
           role := Role.super_admin }] 1 "admin123456" "newpass9" 8).2 1 =
        some admin1 ∧
      bcryptCompare "newpass9" admin1.password = true ∧
      bcryptCompare "admin123456" admin1.password = false :=
  C9_change_password_rotation
    [{ _id := 1, username := "superadmin", email := "sa@x.io",
       password := PValue.bhash 12 3 (PValue.raw "admin123456"),
       role := Role.super_admin }] 1
    { _id := 1, username := "superadmin", email := "sa@x.io",
      password := PValue.bhash 12 3 (PValue.raw "admin123456"),
      role := Role.super_admin }
    "admin123456" "newpass9" 8
    (by decide) (by decide) (by decide) (by decide) (by decide)

/-- C10: fetching one contact by id is not read-only — on a contact in
status new, the handler persists the same record with status read (all
other fields untouched, other records untouched) and returns the updated
record; on any other status the collection is returned unchanged. -/
theorem C10_get_contact_marks_read (db : List ContactRec) (i : Nat)
    (c : ContactRec) (hfind : findContactById db i = some c) :
    (c.status = CStatus.new →
      (getContactById db i).data = some { c with status := CStatus.read } ∧
      (getContactById db i).db =
        saveContact db { c with status := CStatus.read } ∧
      (getContactById db i).db ≠ db ∧
      { c with status := CStatus.read } ∈ (getContactById db i).db ∧
      (∀ d ∈ db, d._id ≠ c._id → d ∈ (getContactById db i).db)) ∧
    (c.status ≠ CStatus.new →
      (getContactById db i).data = some c ∧ (getContactById db i).db = db) ∧
    (getContactById db i).resp.status = 200 := by
  have hc : c ∈ db := List.mem_of_find?_eq_some hfind
  by_cases hnew : c.status = CStatus.new
  · have hget : getContactById db i =
        { resp := ⟨200, true, ""⟩,
          data := some { c with status := CStatus.read },
          db := saveContact db { c with status := CStatus.read } } := by
      simp [getContactById, hfind, hnew]
    refine ⟨fun _ => ⟨by rw [hget], by rw [hget], ?_, ?_, ?_⟩,
      fun h => absurd hnew h, by rw [hget]⟩
    · rw [hget]
      refine map_ne_of_mem_ne _ c ?_ db hc
      simp only [beq_self_eq_true, if_pos]
      intro hEq
      have := congrArg ContactRec.status hEq
      rw [hnew] at this
      simp at this
    · rw [hget]
      have := List.mem_map_of_mem
        (fun d => if d._id == ({ c with status := CStatus.read } : ContactRec)._id
          then { c with status := CStatus.read } else d) hc
      simpa [saveContact] using this
    · intro d hd hdne
      rw [hget]
      have := List.mem_map_of_mem
        (fun e => if e._id == ({ c with status := CStatus.read } : ContactRec)._id
          then { c with status := CStatus.read } else e) hd
      simpa [saveContact, hdne] using this
  · refine ⟨fun h => absurd h hnew, fun _ => ?_, ?_⟩
    · constructor <;> simp [getContactById, hfind, hnew]
    · simp [getContactById, hfind, hnew]

/-- Concrete instantiation of C10: fetching a status-new contact returns
it in status read and persists that change, the collection no longer
equal to what it was. -/
theorem C10_get_contact_marks_read_witness :
    (getContactById [alice] 1).data = some { alice with status := CStatus.read } ∧
    (getContactById [alice] 1).db =
      saveContact [alice] { alice with status := CStatus.read } ∧
    (getContactById [alice] 1).db ≠ [alice] :=
  ⟨((C10_get_contact_marks_read [alice] 1 alice (by decide)).1 rfl).1,
   ((C10_get_contact_marks_read [alice] 1 alice (by decide)).1 rfl).2.1,
   ((C10_get_contact_marks_read [alice] 1 alice (by decide)).1 rfl).2.2.1⟩

/-- Helper: reading back the hit count just recorded for an IP. -/
theorem getHits_setHits (h : List (String × Nat)) (ip : String) (n : Nat) :
    getHits (setHits h ip n) ip = n := by
  induction h with
  | nil => simp [getHits, setHits]
  | cons p rest ih =>
    by_cases hp : (p.1 == ip) = true
    · simp [setHits, hp, getHits, List.find?_cons]
    · simp only [setHits, hp, Bool.false_eq_true, if_false]
      simp only [getHits, List.find?_cons, hp]
      exact ih

/-- Helper: a contact request inside the current windows whose increment
overruns the general /api/ quota is answered by the general limiter, the
contact limiter and the collection untouched. -/
theorem apiContactRequest_api_over (st : ApiState) (ip ua : String)
    (t fid : Nat) (inp : SubmitIn) (hta : t < st.api.resetTime)
    (hover : ¬ getHits st.api.hits ip + 1 ≤ 100) :
    apiContactRequest st ip t fid inp ua =
      (⟨429, false, "Too many requests from this IP, please try again later."⟩,
       { st with api :=
           ⟨st.api.resetTime, setHits st.api.hits ip (getHits st.api.hits ip + 1)⟩ }) := by
  have h1 : ¬ st.api.resetTime ≤ t := Nat.not_le.mpr hta
  simp [apiContactRequest, limiterHit, h1, hover]

/-- Helper: a contact request inside the current windows that passes the
general quota but overruns the contact quota is answered by the contact
limiter; both counters are incremented and the collection untouched. -/
theorem apiContactRequest_contact_over (st : ApiState) (ip ua : String)
    (t fid : Nat) (inp : SubmitIn) (hta : t < st.api.resetTime)
    (htc : t < st.contact.resetTime)
    (hok : getHits st.api.hits ip + 1 ≤ 100)
    (hover : ¬ getHits st.contact.hits ip + 1 ≤ 5) :
    apiContactRequest st ip t fid inp ua =
      (⟨429, false, "Too many contact form submissions, please try again later."⟩,
       { st with
         api :=
           ⟨st.api.resetTime, setHits st.api.hits ip (getHits st.api.hits ip + 1)⟩,
         contact :=
           ⟨st.contact.resetTime,
            setHits st.contact.hits ip (getHits st.contact.hits ip + 1)⟩ }) := by
  have h1 : ¬ st.api.resetTime ≤ t := Nat.not_le.mpr hta
  have h2 : ¬ st.contact.resetTime ≤ t := Nat.not_le.mpr htc
  simp [apiContactRequest, limiterHit, h1, h2, hok, hover]

/-- Helper: a contact request inside the current windows that passes both
quotas reaches the submission handler; both counters are incremented. -/
theorem apiContactRequest_pass (st : ApiState) (ip ua : String)
    (t fid : Nat) (inp : SubmitIn) (hta : t < st.api.resetTime)
    (htc : t < st.contact.resetTime)
    (hok : getHits st.api.hits ip + 1 ≤ 100)
    (hok2 : getHits st.contact.hits ip + 1 ≤ 5) :
    apiContactRequest st ip t fid inp ua =
      ((contactSubmit st.db t fid inp ip ua true).resp,
       { api :=
           ⟨st.api.resetTime, setHits st.api.hits ip (getHits st.api.hits ip + 1)⟩,
         contact :=
           ⟨st.contact.resetTime,
            setHits st.contact.hits ip (getHits st.contact.hits ip + 1)⟩,
         db := (contactSubmit st.db t fid inp ip ua true).db }) := by
  have h1 : ¬ st.api.resetTime ≤ t := Nat.not_le.mpr hta
  have h2 : ¬ st.contact.resetTime ≤ t := Nat.not_le.mpr htc
  simp [apiContactRequest, limiterHit, h1, h2, hok, hok2]

/-- Helper: unfolding one step of a contact-request run. -/
theorem runContactReqs_cons (st : ApiState) (ip : String) (t fid : Nat)
    (inp : SubmitIn) (rest : List (Nat × Nat × SubmitIn)) :
    runContactReqs st ip ((t, fid, inp) :: rest) =
      ((apiContactRequest st ip t fid inp "").1 ::
        (runContactReqs (apiContactRequest st ip t fid inp "").2 ip rest).1,
       (runContactReqs (apiContactRequest st ip t fid inp "").2 ip rest).2) := rfl

/-- Helper: unfolding one step of a general-request run. -/
theorem runGeneralReqs_cons (st : ApiState) (ip : String) (t : Nat)
    (rest : List Nat) :
    runGeneralReqs st ip (t :: rest) =
      ((apiGeneralRequest st ip t).1 ::
        (runGeneralReqs (apiGeneralRequest st ip t).2 ip rest).1,
       (runGeneralReqs (apiGeneralRequest st ip t).2 ip rest).2) := rfl

/-- Helper: over any run of contact requests inside the current windows,
the number of accepted (201) submissions is bounded by the contact quota
of 5 minus the hits this IP already scored in the window. -/
theorem runContactReqs_accept_bound (ip : String) :
    ∀ (reqs : List (Nat × Nat × SubmitIn)) (st : ApiState),
      (∀ r ∈ reqs, r.1 < st.api.resetTime ∧ r.1 < st.contact.resetTime) →
      (runContactReqs st ip reqs).1.countP (fun resp => resp.status == 201) ≤
        5 - getHits st.contact.hits ip := by
  intro reqs
  induction reqs with
  | nil => intro st _; simp [runContactReqs]
  | cons r rest ih =>
    intro st h
    have hr := h r (List.mem_cons_self r rest)
    have hrest := fun x hx => h x (List.mem_cons_of_mem r hx)
    obtain ⟨t, fid, inp⟩ := r
    obtain ⟨hta, htc⟩ := hr
    rw [runContactReqs_cons]
    by_cases h1 : getHits st.api.hits ip + 1 ≤ 100
    · by_cases h2 : getHits st.contact.hits ip + 1 ≤ 5
      · rw [apiContactRequest_pass st ip "" t fid inp hta htc h1 h2]
        dsimp only
        have hb := ih
          { api := ⟨st.api.resetTime,
              setHits st.api.hits ip (getHits st.api.hits ip + 1)⟩,
            contact := ⟨st.contact.resetTime,
              setHits st.contact.hits ip (getHits st.contact.hits ip + 1)⟩,
            db := (contactSubmit st.db t fid inp ip "" true).db }
          (fun x hx => hrest x hx)
        dsimp only at hb
        rw [getHits_setHits] at hb
        rw [List.countP_cons]
        by_cases hs : ((contactSubmit st.db t fid inp ip "" true).resp.status == 201) = true
        · rw [hs, if_pos rfl]
          omega
        · rw [Bool.not_eq_true] at hs
          rw [hs]
          simp only [Bool.false_eq_true, if_false]
          omega
      · rw [apiContactRequest_contact_over st ip "" t fid inp hta htc h1 h2]
        dsimp only
        have hb := ih
          { api := ⟨st.api.resetTime,
              setHits st.api.hits ip (getHits st.api.hits ip + 1)⟩,
            contact := ⟨st.contact.resetTime,
              setHits st.contact.hits ip (getHits st.contact.hits ip + 1)⟩,
            db := st.db }
          (fun x hx => hrest x hx)
        dsimp only at hb
        rw [getHits_setHits] at hb
        rw [List.countP_cons]
        norm_num
        omega
    · rw [apiContactRequest_api_over st ip "" t fid inp hta h1]
      dsimp only
      have hb := ih
        { api := ⟨st.api.resetTime,
            setHits st.api.hits ip (getHits st.api.hits ip + 1)⟩,
          contact := st.contact, db := st.db }
        (fun x hx => hrest x hx)
      dsimp only at hb
      rw [List.countP_cons]
      norm_num
      omega

/-- Helper: over a run of contact requests inside the current windows
that stays within the general quota, both window ends are unchanged and
both counters for this IP grow by exactly the number of requests. -/
theorem runContactReqs_counters (ip : String) :
    ∀ (reqs : List (Nat × Nat × SubmitIn)) (st : ApiState),
      (∀ r ∈ reqs, r.1 < st.api.resetTime ∧ r.1 < st.contact.resetTime) →
      getHits st.api.hits ip + reqs.length ≤ 100 →
      (runContactReqs st ip reqs).2.api.resetTime = st.api.resetTime ∧
      (runContactReqs st ip reqs).2.contact.resetTime = st.contact.resetTime ∧
      getHits (runContactReqs st ip reqs).2.api.hits ip =
        getHits st.api.hits ip + reqs.length ∧
      getHits (runContactReqs st ip reqs).2.contact.hits ip =
        getHits st.contact.hits ip + reqs.length := by
  intro reqs
  induction reqs with
  | nil => intro st _ _; simp [runContactReqs]
  | cons r rest ih =>
    intro st h hq
    have hr := h r (List.mem_cons_self r rest)
    have hrest := fun x hx => h x (List.mem_cons_of_mem r hx)
    obtain ⟨t, fid, inp⟩ := r
    obtain ⟨hta, htc⟩ := hr
    have h1 : getHits st.api.hits ip + 1 ≤ 100 := by
      simp only [List.length_cons] at hq
      omega
    rw [runContactReqs_cons]
    by_cases h2 : getHits st.contact.hits ip + 1 ≤ 5
    · rw [apiContactRequest_pass st ip "" t fid inp hta htc h1 h2]
      dsimp only
      have hb := ih
        { api := ⟨st.api.resetTime,
            setHits st.api.hits ip (getHits st.api.hits ip + 1)⟩,
          contact := ⟨st.contact.resetTime,
            setHits st.contact.hits ip (getHits st.contact.hits ip + 1)⟩,
          db := (contactSubmit st.db t fid inp ip "" true).db }
        (fun x hx => hrest x hx)
        (by dsimp only; rw [getHits_setHits]
            simp only [List.length_cons] at hq; omega)
      dsimp only at hb
      rw [getHits_setHits, getHits_setHits] at hb
      simp only [List.length_cons]
      exact ⟨hb.1, hb.2.1, by rw [hb.2.2.1]; omega, by rw [hb.2.2.2]; omega⟩
    · rw [apiContactRequest_contact_over st ip "" t fid inp hta htc h1 h2]
      dsimp only
      have hb := ih
        { api := ⟨st.api.resetTime,
            setHits st.api.hits ip (getHits st.api.hits ip + 1)⟩,
          contact := ⟨st.contact.resetTime,
            setHits st.contact.hits ip (getHits st.contact.hits ip + 1)⟩,
          db := st.db }
        (fun x hx => hrest x hx)
        (by dsimp only; rw [getHits_setHits]
            simp only [List.length_cons] at hq; omega)
      dsimp only at hb
      rw [getHits_setHits, getHits_setHits] at hb
      simp only [List.length_cons]
      exact ⟨hb.1, hb.2.1, by rw [hb.2.2.1]; omega, by rw [hb.2.2.2]; omega⟩

/-- Helper: over any run of general /api/ requests inside the current
window, at most 100 minus the already-scored hits reach their route. -/
theorem runGeneralReqs_accept_bound (ip : String) :
    ∀ (times : List Nat) (st : ApiState),
      (∀ t ∈ times, t < st.api.resetTime) →
      (runGeneralReqs st ip times).1.countP (fun b => b) ≤
        100 - getHits st.api.hits ip := by
  intro times
  induction times with
  | nil => intro st _; simp [runGeneralReqs]
  | cons t rest ih =>
    intro st h
    have hta := h t (List.mem_cons_self t rest)
    have hrest := fun x hx => h x (List.mem_cons_of_mem t hx)
    have hnr : ¬ st.api.resetTime ≤ t := Nat.not_le.mpr hta
    rw [runGeneralReqs_cons]
    by_cases h1 : getHits st.api.hits ip + 1 ≤ 100
    · rw [show apiGeneralRequest st ip t =
          (true, { st with api :=
            ⟨st.api.resetTime, setHits st.api.hits ip (getHits st.api.hits ip + 1)⟩ })
        from by simp [apiGeneralRequest, limiterHit, hnr, h1]]
      dsimp only
      have hb := ih
        { api := ⟨st.api.resetTime,
            setHits st.api.hits ip (getHits st.api.hits ip + 1)⟩,
          contact := st.contact, db := st.db }
        (fun x hx => hrest x hx)
      dsimp only at hb
      rw [getHits_setHits] at hb
      rw [List.countP_cons]
      norm_num
      omega
    · rw [show apiGeneralRequest st ip t =
          (false, { st with api :=
            ⟨st.api.resetTime, setHits st.api.hits ip (getHits st.api.hits ip + 1)⟩ })
        from by simp [apiGeneralRequest, limiterHit, hnr, h1]]
      dsimp only
      have hb := ih
        { api := ⟨st.api.resetTime,
            setHits st.api.hits ip (getHits st.api.hits ip + 1)⟩,
          contact := st.contact, db := st.db }
        (fun x hx => hrest x hx)
      dsimp only at hb
      rw [getHits_setHits] at hb
      rw [List.countP_cons]
      norm_num
      omega

/-- C7: two-tier rate limiting within the current fixed windows — (a) a
run of contact submissions from one IP gets at most 5 accepted, however
many are sent and whatever their contents; (b) after any 5 requests from
a fresh window the 6th contact request from that IP is rejected by the
contact limiter regardless of content; (c) for a single contact
submission, overrunning the general 100-per-15-minutes quota rejects it
at the first tier, passing the first but overrunning the 5-per-hour
contact quota rejects it at the second, and only when both pass does the
submission handler run; (d) a run of general /api/ requests gets at most
100 through. -/
theorem C7_two_tier_rate_limits :
    (∀ (ip : String) (reqs : List (Nat × Nat × SubmitIn)) (st : ApiState),
      (∀ r ∈ reqs, r.1 < st.api.resetTime ∧ r.1 < st.contact.resetTime) →
      (runContactReqs st ip reqs).1.countP (fun resp => resp.status == 201) ≤
        5 - getHits st.contact.hits ip) ∧
    (∀ (ip ua6 : String) (first5 : List (Nat × Nat × SubmitIn)) (st : ApiState)
        (t6 fid6 : Nat) (inp6 : SubmitIn),
      first5.length = 5 →
      getHits st.api.hits ip = 0 → getHits st.contact.hits ip = 0 →
      (∀ r ∈ first5, r.1 < st.api.resetTime ∧ r.1 < st.contact.resetTime) →
      t6 < st.api.resetTime → t6 < st.contact.resetTime →
      (apiContactRequest (runContactReqs st ip first5).2 ip t6 fid6 inp6 ua6).1 =
        ⟨429, false, "Too many contact form submissions, please try again later."⟩) ∧
    (∀ (ip ua : String) (st : ApiState) (t fid : Nat) (inp : SubmitIn),
      t < st.api.resetTime → t < st.contact.resetTime →
      (¬ getHits st.api.hits ip + 1 ≤ 100 →
        (apiContactRequest st ip t fid inp ua).1 =
          ⟨429, false, "Too many requests from this IP, please try again later."⟩ ∧
        (apiContactRequest st ip t fid inp ua).2.db = st.db) ∧
      (getHits st.api.hits ip + 1 ≤ 100 → ¬ getHits st.contact.hits ip + 1 ≤ 5 →
        (apiContactRequest st ip t fid inp ua).1 =
          ⟨429, false, "Too many contact form submissions, please try again later."⟩ ∧
        (apiContactRequest st ip t fid inp ua).2.db = st.db) ∧
      (getHits st.api.hits ip + 1 ≤ 100 → getHits st.contact.hits ip + 1 ≤ 5 →
        (apiContactRequest st ip t fid inp ua).1 =
          (contactSubmit st.db t fid inp ip ua true).resp ∧
        (apiContactRequest st ip t fid inp ua).2.db =
          (contactSubmit st.db t fid inp ip ua true).db)) ∧
    (∀ (ip : String) (times : List Nat) (st : ApiState),
      (∀ t ∈ times, t < st.api.resetTime) →
      (runGeneralReqs st ip times).1.countP (fun b => b) ≤
        100 - getHits st.api.hits ip) := by
  refine ⟨runContactReqs_accept_bound, ?_, ?_, runGeneralReqs_accept_bound⟩
  · intro ip ua6 first5 st t6 fid6 inp6 hlen ha0 hc0 hin hta htc
    have hcnt := runContactReqs_counters ip first5 st hin
      (by rw [ha0, hlen]; omega)
    rw [ha0, hc0, hlen] at hcnt
    rw [apiContactRequest_contact_over _ ip ua6 t6 fid6 inp6
      (by rw [hcnt.1]; exact hta) (by rw [hcnt.2.1]; exact htc)
      (by rw [hcnt.2.2.1]; omega) (by rw [hcnt.2.2.2]; omega)]
  · intro ip ua st t fid inp hta htc
    refine ⟨fun hov => ?_, fun h1 hov => ?_, fun h1 h2 => ?_⟩
    · rw [apiContactRequest_api_over st ip ua t fid inp hta hov]
      exact ⟨rfl, rfl⟩
    · rw [apiContactRequest_contact_over st ip ua t fid inp hta htc h1 hov]
      exact ⟨rfl, rfl⟩
    · rw [apiContactRequest_pass st ip ua t fid inp hta htc h1 h2]
      exact ⟨rfl, rfl⟩

/-- Concrete instantiation of C7: from an in-window state where the IP
has already scored 5 contact hits, one more submission is rejected by the
contact limiter with the collection untouched, even though the general
quota still has room. -/
theorem C7_two_tier_rate_limits_witness :
    (apiContactRequest
        { api := ⟨1000000, [("9.9.9.9", 10)]⟩,
          contact := ⟨1000000, [("9.9.9.9", 5)]⟩, db := [] }
        "9.9.9.9" 5 1 joInput "UA").1 =
      ⟨429, false, "Too many contact form submissions, please try again later."⟩ ∧
    (apiContactRequest
        { api := ⟨1000000, [("9.9.9.9", 10)]⟩,
          contact := ⟨1000000, [("9.9.9.9", 5)]⟩, db := [] }
        "9.9.9.9" 5 1 joInput "UA").2.db = [] :=
  ((C7_two_tier_rate_limits.2.2.1 "9.9.9.9" "UA"
      { api := ⟨1000000, [("9.9.9.9", 10)]⟩,
        contact := ⟨1000000, [("9.9.9.9", 5)]⟩, db := [] }
      5 1 joInput (by decide) (by decide)).2.1 (by decide) (by decide))

end Theorems

end Tangible
